import Mathlib

/-!
Shallow embedding of `modules/whisper/data_classes.py` (Whisper-WebUI).

The file under verification declares pydantic parameter records
(`VadParams`, `DiarizationParams`, `BGMSeparationParams`, `WhisperParams`,
aggregated into `TranscriptionPipelineParams`) together with classmethods
that render gradio form widgets pre-populated from a defaults dictionary.

Modelling conventions:
* Python floats appear only as literals and are never arithmetically
  combined in the source, so they are embedded as `PyFloat`: an exact
  rational together with the two infinities (`float("inf")` is the default
  of `VadParams.max_speech_duration_s`).
* Heterogeneous Python values (widget values, dict entries) are embedded as
  `PyVal`.  Python `==` between values of different kinds is embedded by
  `PyVal.pyEq`; in particular an `Enum` member compares unequal to any
  plain string, which the source relies on in two `visible=` keyword
  arguments.
* A defaults dictionary is an association list `List (String × PyVal)`;
  `dictGet` embeds `dict.get(key, fallback)`.  Passing Python `None` for
  the optional `defaults` argument is the same as passing `{}` (the source
  normalises with `defaults = defaults or {}`), so the renderers here take
  the dictionary directly.
* `cls.<field>` inside a classmethod is class-level access to a pydantic
  model field.  The source imports `field_validator`, which only pydantic
  v2 provides, and pydantic v2 removes assigned field attributes from the
  model class namespace during class creation, its metaclass
  `__getattr__` raising `AttributeError` for them; Python moreover
  evaluates the fallback argument of `dict.get` eagerly.  Class field
  access is therefore embedded as `classFieldAccess`, which raises, and
  the renderers are `Except`-valued: each one aborts with `AttributeError`
  at the first `cls.<field>` occurrence in Python evaluation order
  (widgets are built left to right, each widget evaluating its keyword
  arguments before the next widget starts), and never returns a widget
  list.  The accesses are hoisted in front of the (then unreachable)
  widget-list construction, preserving that evaluation order.
* Purely presentational widget attributes that no claim touches
  (`precision`, `step`, `minimum`/`maximum`, `interactive`) are not
  recorded on `Widget`; `label`, `value`, `info`, `choices` and `visible`
  are.
-/

namespace WWebUI

/-- Embedded Python float: an exact rational or one of the two infinities.
The source only stores float literals and compares them against bounds. -/
inductive PyFloat where
  | finite (q : ℚ)
  | inf
  | negInf
deriving DecidableEq

/-- Python `<=` on embedded floats. -/
def PyFloat.le : PyFloat → PyFloat → Bool
  | .negInf, _ => true
  | .finite _, .negInf => false
  | .finite a, .finite b => decide (a ≤ b)
  | .finite _, .inf => true
  | .inf, .inf => true
  | .inf, _ => false

/-- Python `<` on embedded floats. -/
def PyFloat.lt : PyFloat → PyFloat → Bool
  | .negInf, .negInf => false
  | .negInf, _ => true
  | .finite a, .finite b => decide (a < b)
  | .finite _, .inf => true
  | .finite _, .negInf => false
  | .inf, _ => false

/-- Embedded Python value, as stored in defaults dictionaries and widgets.
`enumMember cls m` is the member `m` of the `Enum` class `cls`. -/
inductive PyVal where
  | none
  | bool (b : Bool)
  | int (n : Int)
  | float (f : PyFloat)
  | str (s : String)
  | enumMember (cls : String) (m : String)
deriving DecidableEq

/-- Numeric view of a Python value: `bool` is an `int` subclass
(`True == 1`), ints and floats compare numerically. -/
def PyVal.toNum : PyVal → Option PyFloat
  | .bool b => some (.finite (if b then 1 else 0))
  | .int n => some (.finite (n : ℚ))
  | .float f => some f
  | _ => Option.none

/-- Python `==` between embedded values: numbers compare numerically,
strings by content, enum members by identity (class and member name), and
everything else cross-kind compares unequal — in particular an enum member
never equals a plain string. -/
def PyVal.pyEq (a b : PyVal) : Bool :=
  match a.toNum, b.toNum with
  | some x, some y => decide (x = y)
  | _, _ =>
    match a, b with
    | .none, .none => true
    | .str s, .str t => decide (s = t)
    | .enumMember c m, .enumMember c' m' => decide (c = c') && decide (m = m')
    | _, _ => false

/-- Embed `Option String` the way pydantic dumps it (`None` ↦ `None`). -/
def PyVal.ofOptStr : Option String → PyVal
  | Option.none => .none
  | some s => .str s

/-- Embed `Option Int`. -/
def PyVal.ofOptInt : Option Int → PyVal
  | Option.none => .none
  | some n => .int n

/-- Embed `Option PyFloat`. -/
def PyVal.ofOptFloat : Option PyFloat → PyVal
  | Option.none => .none
  | some f => .float f

/-- A defaults dictionary, as passed to the `to_gradio_inputs` classmethods. -/
abbrev Dict := List (String × PyVal)

/-- Embeds Python `d.get(key, fallback)`. -/
def dictGet (d : Dict) (key : String) (fallback : PyVal) : PyVal :=
  match d.find? (fun p => p.1 == key) with
  | some p => p.2
  | Option.none => fallback

/-- The gradio component constructors used by the source. -/
inductive WidgetKind where
  | checkbox
  | slider
  | number
  | textbox
  | dropdown
deriving DecidableEq

/-- A rendered gradio form component, keeping the attributes the claims are
about: constructor, `label=`, `value=`, `info=`, `choices=`, `visible=`. -/
structure Widget where
  kind : WidgetKind
  label : String
  value : PyVal
  info : String := ""
  choices : List String := []
  visible : Bool := true
deriving DecidableEq

/-- A raised Python exception; only `AttributeError` occurs in this
file. -/
inductive PyErr where
  | attributeError (name : String)
deriving DecidableEq

/-- Class-level access `cls.<field>` on a pydantic v2 model class: the
metaclass removes every assigned field attribute from the class namespace
when the class is created, and its `__getattr__` then raises
`AttributeError(name)`.  The source imports `field_validator`, which only
pydantic v2 provides, so this is the semantics of every `cls.<field>`
fallback in the renderers below. -/
def classFieldAccess (name : String) : Except PyErr PyVal :=
  .error (.attributeError name)

/-- `class WhisperImpl(Enum)` with members `WHISPER`, `FASTER_WHISPER`,
`INSANELY_FAST_WHISPER`. -/
inductive WhisperImpl where
  | whisper
  | faster_whisper
  | insanely_fast_whisper
deriving DecidableEq

/-- The `Enum` member as a Python value (member identity). -/
def WhisperImpl.toPyVal : WhisperImpl → PyVal
  | .whisper => .enumMember "WhisperImpl" "WHISPER"
  | .faster_whisper => .enumMember "WhisperImpl" "FASTER_WHISPER"
  | .insanely_fast_whisper => .enumMember "WhisperImpl" "INSANELY_FAST_WHISPER"

/-- Modelled from the spec: the `AUTOMATIC_DETECTION` sentinel is imported
from `modules/utils/constants.py`, which is not among the sources; only its
use as an equality sentinel in `WhisperParams.validate_lang` matters, and
the theorems below do not depend on its exact text. -/
def AUTOMATIC_DETECTION : String := "Automatic Detection"

/-- `class VadParams(BaseModel)`: fields with their declared defaults, in
declaration order. -/
structure VadParams where
  vad_filter : Bool := false
  threshold : PyFloat := .finite (mkRat 1 2)
  min_speech_duration_ms : Int := 250
  max_speech_duration_s : PyFloat := .inf
  min_silence_duration_ms : Int := 2000
  speech_pad_ms : Int := 400
deriving DecidableEq

/-- The record obtained by constructing `VadParams()` with no arguments. -/
def VadParams.default : VadParams := {}

/-- The declared field names of `VadParams`, in declaration order. -/
def VadParams.fieldNames : List String :=
  ["vad_filter", "threshold", "min_speech_duration_ms",
   "max_speech_duration_s", "min_silence_duration_ms", "speech_pad_ms"]

/-- The pydantic field constraints of `VadParams`: `threshold` has
`ge=0.0, le=1.0`, `max_speech_duration_s` has `gt=0`, and the three
millisecond fields have `ge=0`. -/
def VadParams.valid (p : VadParams) : Bool :=
  PyFloat.le (.finite 0) p.threshold && PyFloat.le p.threshold (.finite 1)
    && decide (0 ≤ p.min_speech_duration_ms)
    && PyFloat.lt (.finite 0) p.max_speech_duration_s
    && decide (0 ≤ p.min_silence_duration_ms)
    && decide (0 ≤ p.speech_pad_ms)

/-- Pydantic construction of `VadParams` from supplied field values:
validation either passes, producing the record, or raises, producing
nothing. -/
def VadParams.construct (p : VadParams) : Option VadParams :=
  if p.valid then some p else Option.none

/-- `VadParams.to_dict` = `model_dump()`: field name/value pairs in
declaration order. -/
def VadParams.to_dict (p : VadParams) : Dict :=
  [("vad_filter", .bool p.vad_filter),
   ("threshold", .float p.threshold),
   ("min_speech_duration_ms", .int p.min_speech_duration_ms),
   ("max_speech_duration_s", .float p.max_speech_duration_s),
   ("min_silence_duration_ms", .int p.min_silence_duration_ms),
   ("speech_pad_ms", .int p.speech_pad_ms)]

/-- `VadParams.to_gradio_inputs(defaults)`.  Each widget's `value=` is
`defaults.get(field, cls.field)`; the first `cls.vad_filter` access raises
before the first widget is finished, so the widget list is never
returned. -/
def VadParams.to_gradio_inputs (defaults : Dict) :
    Except PyErr (List Widget) := do
  let fb_vad_filter ← classFieldAccess "vad_filter"
  let fb_threshold ← classFieldAccess "threshold"
  let fb_min_speech_duration_ms ← classFieldAccess "min_speech_duration_ms"
  let fb_max_speech_duration_s ← classFieldAccess "max_speech_duration_s"
  let fb_min_silence_duration_ms ← classFieldAccess "min_silence_duration_ms"
  let fb_speech_pad_ms ← classFieldAccess "speech_pad_ms"
  pure
    [{ kind := .checkbox, label := "Enable Silero VAD Filter",
       value := dictGet defaults "vad_filter" fb_vad_filter,
       info := "Enable this to transcribe only detected voice" },
     { kind := .slider, label := "Speech Threshold",
       value := dictGet defaults "threshold" fb_threshold,
       info := "Lower it to be more sensitive to small sounds." },
     { kind := .number, label := "Minimum Speech Duration (ms)",
       value := dictGet defaults "min_speech_duration_ms"
         fb_min_speech_duration_ms,
       info := "Final speech chunks shorter than this time are thrown out" },
     { kind := .number, label := "Maximum Speech Duration (s)",
       value := dictGet defaults "max_speech_duration_s"
         fb_max_speech_duration_s,
       info := "Maximum duration of speech chunks in \"seconds\"." },
     { kind := .number, label := "Minimum Silence Duration (ms)",
       value := dictGet defaults "min_silence_duration_ms"
         fb_min_silence_duration_ms,
       info := "In the end of each speech chunk wait for this time before separating it" },
     { kind := .number, label := "Speech Padding (ms)",
       value := dictGet defaults "speech_pad_ms" fb_speech_pad_ms,
       info := "Final speech chunks are padded by this time each side" }]

/-- `class DiarizationParams(BaseModel)`. -/
structure DiarizationParams where
  is_diarize : Bool := false
  hf_token : String := ""
deriving DecidableEq

/-- The record obtained by constructing `DiarizationParams()` with no
arguments. -/
def DiarizationParams.default : DiarizationParams := {}

/-- The declared field names of `DiarizationParams`, in declaration order. -/
def DiarizationParams.fieldNames : List String := ["is_diarize", "hf_token"]

/-- `DiarizationParams` declares no range or membership constraints, so
construction always succeeds. -/
def DiarizationParams.construct (p : DiarizationParams) :
    Option DiarizationParams :=
  some p

/-- `DiarizationParams.to_dict` = `model_dump()`. -/
def DiarizationParams.to_dict (p : DiarizationParams) : Dict :=
  [("is_diarize", .bool p.is_diarize), ("hf_token", .str p.hf_token)]

/-- `DiarizationParams.to_gradio_inputs(defaults, available_devices,
device)`.  The `cls.is_diarize` access in the first widget raises, so the
three-widget list (including the fieldless Device dropdown) is never
returned. -/
def DiarizationParams.to_gradio_inputs (defaults : Dict)
    (available_devices : Option (List String)) (device : Option String) :
    Except PyErr (List Widget) := do
  let fb_is_diarize ← classFieldAccess "is_diarize"
  let fb_hf_token ← classFieldAccess "hf_token"
  pure
    [{ kind := .checkbox, label := "Enable Diarization",
       value := dictGet defaults "is_diarize" fb_is_diarize,
       info := "Enable speaker diarization" },
     { kind := .textbox, label := "HuggingFace Token",
       value := dictGet defaults "hf_token" fb_hf_token,
       info := "This is only needed the first time you download the model" },
     { kind := .dropdown, label := "Device",
       value := .str (device.getD "cuda"),
       info := "Device to run diarization model",
       choices := available_devices.getD ["cpu", "cuda"] }]

/-- `class BGMSeparationParams(BaseModel)`. -/
structure BGMSeparationParams where
  is_separate_bgm : Bool := false
  model_size : String := "UVR-MDX-NET-Inst_HQ_4"
  segment_size : Int := 256
  save_file : Bool := false
  enable_offload : Bool := true
deriving DecidableEq

/-- The record obtained by constructing `BGMSeparationParams()` with no
arguments. -/
def BGMSeparationParams.default : BGMSeparationParams := {}

/-- The declared field names of `BGMSeparationParams`, in declaration
order. -/
def BGMSeparationParams.fieldNames : List String :=
  ["is_separate_bgm", "model_size", "segment_size", "save_file",
   "enable_offload"]

/-- The pydantic field constraints of `BGMSeparationParams`:
`segment_size` has `gt=0`; `model_size` is a plain `str` field with no
membership constraint. -/
def BGMSeparationParams.valid (p : BGMSeparationParams) : Bool :=
  decide (0 < p.segment_size)

/-- Pydantic construction of `BGMSeparationParams`. -/
def BGMSeparationParams.construct (p : BGMSeparationParams) :
    Option BGMSeparationParams :=
  if p.valid then some p else Option.none

/-- `BGMSeparationParams.to_dict` = `model_dump()`. -/
def BGMSeparationParams.to_dict (p : BGMSeparationParams) : Dict :=
  [("is_separate_bgm", .bool p.is_separate_bgm),
   ("model_size", .str p.model_size),
   ("segment_size", .int p.segment_size),
   ("save_file", .bool p.save_file),
   ("enable_offload", .bool p.enable_offload)]

/-- `BGMSeparationParams.to_gradio_input(defaults, available_devices,
device, available_models)` (singular name as in the source).  The
`cls.is_separate_bgm` access in the first widget raises, so the six-widget
list is never returned. -/
def BGMSeparationParams.to_gradio_input (defaults : Dict)
    (available_devices : Option (List String)) (device : Option String)
    (available_models : Option (List String)) :
    Except PyErr (List Widget) := do
  let fb_is_separate_bgm ← classFieldAccess "is_separate_bgm"
  let fb_model_size ← classFieldAccess "model_size"
  let fb_segment_size ← classFieldAccess "segment_size"
  let fb_save_file ← classFieldAccess "save_file"
  let fb_enable_offload ← classFieldAccess "enable_offload"
  pure
    [{ kind := .checkbox, label := "Enable Background Music Remover Filter",
       value := dictGet defaults "is_separate_bgm" fb_is_separate_bgm,
       info := "Enabling this will remove background music" },
     { kind := .dropdown, label := "Device",
       value := .str (device.getD "cuda"),
       info := "Device to run UVR model",
       choices := available_devices.getD ["cpu", "cuda"] },
     { kind := .dropdown, label := "Model",
       value := dictGet defaults "model_size" fb_model_size,
       info := "UVR model size",
       choices := available_models.getD
         ["UVR-MDX-NET-Inst_HQ_4", "UVR-MDX-NET-Inst_3"] },
     { kind := .number, label := "Segment Size",
       value := dictGet defaults "segment_size" fb_segment_size,
       info := "Segment size for UVR model" },
     { kind := .checkbox, label := "Save separated files to output",
       value := dictGet defaults "save_file" fb_save_file,
       info := "Whether to save separated audio files" },
     { kind := .checkbox, label := "Offload sub model after removing background music",
       value := dictGet defaults "enable_offload" fb_enable_offload,
       info := "Offload UVR model after transcription" }]

/-- `class WhisperParams(BaseModel)`: fields with their declared defaults,
in declaration order.  The Python field `prefix` is spelled `prefix_` here
because `prefix` is reserved in Lean. -/
structure WhisperParams where
  model_size : String := "large-v2"
  lang : Option String := Option.none
  is_translate : Bool := false
  beam_size : Int := 5
  log_prob_threshold : PyFloat := .finite (-1)
  no_speech_threshold : PyFloat := .finite (mkRat 6 10)
  compute_type : String := "float16"
  best_of : Int := 5
  patience : PyFloat := .finite 1
  condition_on_previous_text : Bool := true
  prompt_reset_on_temperature : PyFloat := .finite (mkRat 1 2)
  initial_prompt : Option String := Option.none
  temperature : PyFloat := .finite 0
  compression_ratio_threshold : PyFloat := .finite (mkRat 12 5)
  batch_size : Int := 24
  length_penalty : PyFloat := .finite 1
  repetition_penalty : PyFloat := .finite 1
  no_repeat_ngram_size : Int := 0
  prefix_ : Option String := Option.none
  suppress_blank : Bool := true
  suppress_tokens : Option String := some "[-1]"
  max_initial_timestamp : PyFloat := .finite 0
  word_timestamps : Bool := false
  prepend_punctuations : Option String := some "\"\x27“¿([\x7b-"
  append_punctuations : Option String := some "\"\x27.。,，!！?？:：”)]\x7d、"
  max_new_tokens : Option Int := Option.none
  chunk_length : Option Int := some 30
  hallucination_silence_threshold : Option PyFloat := Option.none
  hotwords : Option String := Option.none
  language_detection_threshold : Option PyFloat := Option.none
  language_detection_segments : Int := 1
deriving DecidableEq

/-- The record obtained by constructing `WhisperParams()` with no
arguments. -/
def WhisperParams.default : WhisperParams := {}

/-- The declared field names of `WhisperParams`, in declaration order. -/
def WhisperParams.fieldNames : List String :=
  ["model_size", "lang", "is_translate", "beam_size", "log_prob_threshold",
   "no_speech_threshold", "compute_type", "best_of", "patience",
   "condition_on_previous_text", "prompt_reset_on_temperature",
   "initial_prompt", "temperature", "compression_ratio_threshold",
   "batch_size", "length_penalty", "repetition_penalty",
   "no_repeat_ngram_size", "prefix", "suppress_blank", "suppress_tokens",
   "max_initial_timestamp", "word_timestamps", "prepend_punctuations",
   "append_punctuations", "max_new_tokens", "chunk_length",
   "hallucination_silence_threshold", "hotwords",
   "language_detection_threshold", "language_detection_segments"]

/-- The pydantic field constraints of `WhisperParams`: `beam_size` and
`best_of` have `ge=1`; `no_speech_threshold` and
`prompt_reset_on_temperature` have `ge=0.0, le=1.0`; `patience`,
`compression_ratio_threshold`, `batch_size`, `length_penalty`,
`repetition_penalty` and `language_detection_segments` have `gt=0`;
`temperature`, `no_repeat_ngram_size` and `max_initial_timestamp` have
`ge=0`.  `model_size` and `compute_type` are plain `str` fields with no
membership constraint. -/
def WhisperParams.valid (p : WhisperParams) : Bool :=
  decide (1 ≤ p.beam_size)
    && PyFloat.le (.finite 0) p.no_speech_threshold
    && PyFloat.le p.no_speech_threshold (.finite 1)
    && decide (1 ≤ p.best_of)
    && PyFloat.lt (.finite 0) p.patience
    && PyFloat.le (.finite 0) p.prompt_reset_on_temperature
    && PyFloat.le p.prompt_reset_on_temperature (.finite 1)
    && PyFloat.le (.finite 0) p.temperature
    && PyFloat.lt (.finite 0) p.compression_ratio_threshold
    && decide (0 < p.batch_size)
    && PyFloat.lt (.finite 0) p.length_penalty
    && PyFloat.lt (.finite 0) p.repetition_penalty
    && decide (0 ≤ p.no_repeat_ngram_size)
    && PyFloat.le (.finite 0) p.max_initial_timestamp
    && decide (0 < p.language_detection_segments)

/-- `@field_validator('lang') validate_lang`: the `AUTOMATIC_DETECTION`
sentinel is replaced by `None`, any other value is kept. -/
def WhisperParams.validate_lang (v : Option String) : Option String :=
  if v = some AUTOMATIC_DETECTION then Option.none else v

/-- Pydantic construction of `WhisperParams` from supplied field values:
the `lang` field validator rewrites the sentinel to `None`, and every
declared range constraint must hold, else validation raises. -/
def WhisperParams.construct (p : WhisperParams) : Option WhisperParams :=
  let p' := { p with lang := WhisperParams.validate_lang p.lang }
  if p'.valid then some p' else Option.none

/-- `WhisperParams.to_dict` = `model_dump()`: field name/value pairs in
declaration order. -/
def WhisperParams.to_dict (p : WhisperParams) : Dict :=
  [("model_size", .str p.model_size),
   ("lang", .ofOptStr p.lang),
   ("is_translate", .bool p.is_translate),
   ("beam_size", .int p.beam_size),
   ("log_prob_threshold", .float p.log_prob_threshold),
   ("no_speech_threshold", .float p.no_speech_threshold),
   ("compute_type", .str p.compute_type),
   ("best_of", .int p.best_of),
   ("patience", .float p.patience),
   ("condition_on_previous_text", .bool p.condition_on_previous_text),
   ("prompt_reset_on_temperature", .float p.prompt_reset_on_temperature),
   ("initial_prompt", .ofOptStr p.initial_prompt),
   ("temperature", .float p.temperature),
   ("compression_ratio_threshold", .float p.compression_ratio_threshold),
   ("batch_size", .int p.batch_size),
   ("length_penalty", .float p.length_penalty),
   ("repetition_penalty", .float p.repetition_penalty),
   ("no_repeat_ngram_size", .int p.no_repeat_ngram_size),
   ("prefix", .ofOptStr p.prefix_),
   ("suppress_blank", .bool p.suppress_blank),
   ("suppress_tokens", .ofOptStr p.suppress_tokens),
   ("max_initial_timestamp", .float p.max_initial_timestamp),
   ("word_timestamps", .bool p.word_timestamps),
   ("prepend_punctuations", .ofOptStr p.prepend_punctuations),
   ("append_punctuations", .ofOptStr p.append_punctuations),
   ("max_new_tokens", .ofOptInt p.max_new_tokens),
   ("chunk_length", .ofOptInt p.chunk_length),
   ("hallucination_silence_threshold", .ofOptFloat p.hallucination_silence_threshold),
   ("hotwords", .ofOptStr p.hotwords),
   ("language_detection_threshold", .ofOptFloat p.language_detection_threshold),
   ("language_detection_segments", .int p.language_detection_segments)]

/-- `WhisperParams.to_gradio_inputs(defaults, only_advanced, whisper_type,
available_compute_types, compute_type)`.  A `whisper_type` of `None` is
normalised to `FASTER_WHISPER`; the first three fields are rendered only
when `only_advanced` is false; the block from Length Penalty onward only
for `FASTER_WHISPER`; the Batch Size widget only for
`INSANELY_FAST_WHISPER`.  The Compute Type widget's fallback is the
`compute_type` argument, not a class attribute; the two `visible=` keyword
arguments compare the `WhisperImpl` enum member against a plain string, as
the source does.  The first `cls.<field>` access — `cls.model_size` when
`only_advanced` is false, else `cls.beam_size` — raises, so no widget list
is ever returned. -/
def WhisperParams.to_gradio_inputs (defaults : Dict) (only_advanced : Bool)
    (whisper_type : Option WhisperImpl)
    (available_compute_types : Option (List String))
    (compute_type : Option String) : Except PyErr (List Widget) := do
  let wt := whisper_type.getD .faster_whisper
  let basic ←
    if only_advanced then pure ([] : List Widget) else do
      let fb_model_size ← classFieldAccess "model_size"
      let fb_lang ← classFieldAccess "lang"
      let fb_is_translate ← classFieldAccess "is_translate"
      pure
        [{ kind := .dropdown, label := "Model Size",
           value := dictGet defaults "model_size" fb_model_size,
           info := "Whisper model size",
           choices := ["small", "medium", "large-v2"] },
         { kind := .textbox, label := "Language",
           value := dictGet defaults "lang" fb_lang,
           info := "Source language of the file to transcribe" },
         { kind := .checkbox, label := "Translate to English",
           value := dictGet defaults "is_translate" fb_is_translate,
           info := "Translate speech to English end-to-end" }]
  let fb_beam_size ← classFieldAccess "beam_size"
  let fb_log_prob_threshold ← classFieldAccess "log_prob_threshold"
  let fb_no_speech_threshold ← classFieldAccess "no_speech_threshold"
  let fb_best_of ← classFieldAccess "best_of"
  let fb_patience ← classFieldAccess "patience"
  let fb_condition ← classFieldAccess "condition_on_previous_text"
  let fb_prompt_reset ← classFieldAccess "prompt_reset_on_temperature"
  let fb_initial_prompt ← classFieldAccess "initial_prompt"
  let fb_temperature ← classFieldAccess "temperature"
  let fb_compression ← classFieldAccess "compression_ratio_threshold"
  let mainBlock : List Widget :=
    [{ kind := .number, label := "Beam Size",
       value := dictGet defaults "beam_size" fb_beam_size,
       info := "Beam size for decoding" },
     { kind := .number, label := "Log Probability Threshold",
       value := dictGet defaults "log_prob_threshold" fb_log_prob_threshold,
       info := "Threshold for average log probability of sampled tokens" },
     { kind := .number, label := "No Speech Threshold",
       value := dictGet defaults "no_speech_threshold" fb_no_speech_threshold,
       info := "Threshold for detecting silence" },
     { kind := .dropdown, label := "Compute Type",
       value := dictGet defaults "compute_type" (.ofOptStr compute_type),
       info := "Computation type for transcription",
       choices := available_compute_types.getD ["float16", "int8", "int16"] },
     { kind := .number, label := "Best Of",
       value := dictGet defaults "best_of" fb_best_of,
       info := "Number of candidates when sampling" },
     { kind := .number, label := "Patience",
       value := dictGet defaults "patience" fb_patience,
       info := "Beam search patience factor" },
     { kind := .checkbox, label := "Condition On Previous Text",
       value := dictGet defaults "condition_on_previous_text" fb_condition,
       info := "Use previous output as prompt for next window" },
     { kind := .slider, label := "Prompt Reset On Temperature",
       value := dictGet defaults "prompt_reset_on_temperature" fb_prompt_reset,
       info := "Temperature threshold for resetting prompt" },
     { kind := .textbox, label := "Initial Prompt",
       value := dictGet defaults "initial_prompt" fb_initial_prompt,
       info := "Initial prompt for first window" },
     { kind := .slider, label := "Temperature",
       value := dictGet defaults "temperature" fb_temperature,
       info := "Temperature for sampling" },
     { kind := .number, label := "Compression Ratio Threshold",
       value := dictGet defaults "compression_ratio_threshold" fb_compression,
       info := "Threshold for gzip compression ratio" }]
  let fasterBlock ←
    if wt = .faster_whisper then do
      let fb_length_penalty ← classFieldAccess "length_penalty"
      let fb_repetition_penalty ← classFieldAccess "repetition_penalty"
      let fb_no_repeat_ngram_size ← classFieldAccess "no_repeat_ngram_size"
      let fb_prefix_ ← classFieldAccess "prefix"
      let fb_suppress_blank ← classFieldAccess "suppress_blank"
      let fb_suppress_tokens ← classFieldAccess "suppress_tokens"
      let fb_max_initial_timestamp ← classFieldAccess "max_initial_timestamp"
      let fb_word_timestamps ← classFieldAccess "word_timestamps"
      let fb_prepend_punctuations ← classFieldAccess "prepend_punctuations"
      let fb_append_punctuations ← classFieldAccess "append_punctuations"
      let fb_max_new_tokens ← classFieldAccess "max_new_tokens"
      let fb_chunk_length ← classFieldAccess "chunk_length"
      let fb_hallucination ← classFieldAccess "hallucination_silence_threshold"
      let fb_hotwords ← classFieldAccess "hotwords"
      let fb_lang_det_threshold ← classFieldAccess "language_detection_threshold"
      let fb_lang_det_segments ← classFieldAccess "language_detection_segments"
      pure
        [{ kind := .number, label := "Length Penalty",
           value := dictGet defaults "length_penalty" fb_length_penalty,
           info := "Exponential length penalty",
           visible := PyVal.pyEq wt.toPyVal (.str "faster_whisper") },
         { kind := .number, label := "Repetition Penalty",
           value := dictGet defaults "repetition_penalty" fb_repetition_penalty,
           info := "Penalty for repeated tokens" },
         { kind := .number, label := "No Repeat N-gram Size",
           value := dictGet defaults "no_repeat_ngram_size"
             fb_no_repeat_ngram_size,
           info := "Size of n-grams to prevent repetition" },
         { kind := .textbox, label := "Prefix",
           value := dictGet defaults "prefix" fb_prefix_,
           info := "Prefix text for first window" },
         { kind := .checkbox, label := "Suppress Blank",
           value := dictGet defaults "suppress_blank" fb_suppress_blank,
           info := "Suppress blank outputs at start of sampling" },
         { kind := .textbox, label := "Suppress Tokens",
           value := dictGet defaults "suppress_tokens" fb_suppress_tokens,
           info := "Token IDs to suppress" },
         { kind := .number, label := "Max Initial Timestamp",
           value := dictGet defaults "max_initial_timestamp"
             fb_max_initial_timestamp,
           info := "Maximum initial timestamp" },
         { kind := .checkbox, label := "Word Timestamps",
           value := dictGet defaults "word_timestamps" fb_word_timestamps,
           info := "Extract word-level timestamps" },
         { kind := .textbox, label := "Prepend Punctuations",
           value := dictGet defaults "prepend_punctuations"
             fb_prepend_punctuations,
           info := "Punctuations to merge with next word" },
         { kind := .textbox, label := "Append Punctuations",
           value := dictGet defaults "append_punctuations"
             fb_append_punctuations,
           info := "Punctuations to merge with previous word" },
         { kind := .number, label := "Max New Tokens",
           value := dictGet defaults "max_new_tokens" fb_max_new_tokens,
           info := "Maximum number of new tokens per chunk" },
         { kind := .number, label := "Chunk Length (s)",
           value := dictGet defaults "chunk_length" fb_chunk_length,
           info := "Length of audio segments in seconds" },
         { kind := .number, label := "Hallucination Silence Threshold (sec)",
           value := dictGet defaults "hallucination_silence_threshold"
             fb_hallucination,
           info := "Threshold for skipping silent periods in hallucination detection" },
         { kind := .textbox, label := "Hotwords",
           value := dictGet defaults "hotwords" fb_hotwords,
           info := "Hotwords/hint phrases for the model" },
         { kind := .number, label := "Language Detection Threshold",
           value := dictGet defaults "language_detection_threshold"
             fb_lang_det_threshold,
           info := "Threshold for language detection probability" },
         { kind := .number, label := "Language Detection Segments",
           value := dictGet defaults "language_detection_segments"
             fb_lang_det_segments,
           info := "Number of segments for language detection" }]
    else pure []
  let insanelyBlock ←
    if wt = .insanely_fast_whisper then do
      let fb_batch_size ← classFieldAccess "batch_size"
      pure
        [{ kind := .number, label := "Batch Size",
           value := dictGet defaults "batch_size" fb_batch_size,
           info := "Batch size for processing",
           visible := PyVal.pyEq wt.toPyVal (.str "insanely_fast_whisper") }]
    else pure ([] : List Widget)
  pure (basic ++ mainBlock ++ fasterBlock ++ insanelyBlock)

/-- `class TranscriptionPipelineParams(BaseModel)`: the four sub-records,
each defaulting to the default construction of its type
(`default_factory`). -/
structure TranscriptionPipelineParams where
  whisper : WhisperParams := {}
  vad : VadParams := {}
  diarization : DiarizationParams := {}
  bgm_separation : BGMSeparationParams := {}
deriving DecidableEq

/-- `TranscriptionPipelineParams.to_dict`. -/
def TranscriptionPipelineParams.to_dict (p : TranscriptionPipelineParams) :
    List (String × Dict) :=
  [("whisper", p.whisper.to_dict),
   ("vad", p.vad.to_dict),
   ("diarization", p.diarization.to_dict),
   ("bgm_separation", p.bgm_separation.to_dict)]

/-- `TranscriptionPipelineParams.as_list`: the source builds
`diarization_list` from `self.vad.to_dict()`, not from
`self.diarization`. -/
def TranscriptionPipelineParams.as_list (p : TranscriptionPipelineParams) :
    List PyVal :=
  let whisper_list := p.whisper.to_dict.map Prod.snd
  let vad_list := p.vad.to_dict.map Prod.snd
  let diarization_list := p.vad.to_dict.map Prod.snd
  let bgm_sep_list := p.bgm_separation.to_dict.map Prod.snd
  whisper_list ++ vad_list ++ diarization_list ++ bgm_sep_list

/-! Spec-side data: the list of a record's field values in declaration
order, used to state what `as_list` concatenates. -/

/-- The field values of a `VadParams` record, in declaration order. -/
def VadParams.fieldValues (p : VadParams) : List PyVal :=
  [.bool p.vad_filter, .float p.threshold, .int p.min_speech_duration_ms,
   .float p.max_speech_duration_s, .int p.min_silence_duration_ms,
   .int p.speech_pad_ms]

/-- The field values of a `DiarizationParams` record, in declaration
order. -/
def DiarizationParams.fieldValues (p : DiarizationParams) : List PyVal :=
  [.bool p.is_diarize, .str p.hf_token]

/-- The field values of a `BGMSeparationParams` record, in declaration
order. -/
def BGMSeparationParams.fieldValues (p : BGMSeparationParams) : List PyVal :=
  [.bool p.is_separate_bgm, .str p.model_size, .int p.segment_size,
   .bool p.save_file, .bool p.enable_offload]

/-- The field values of a `WhisperParams` record, in declaration order. -/
def WhisperParams.fieldValues (p : WhisperParams) : List PyVal :=
  [.str p.model_size, .ofOptStr p.lang, .bool p.is_translate,
   .int p.beam_size, .float p.log_prob_threshold,
   .float p.no_speech_threshold, .str p.compute_type, .int p.best_of,
   .float p.patience, .bool p.condition_on_previous_text,
   .float p.prompt_reset_on_temperature, .ofOptStr p.initial_prompt,
   .float p.temperature, .float p.compression_ratio_threshold,
   .int p.batch_size, .float p.length_penalty, .float p.repetition_penalty,
   .int p.no_repeat_ngram_size, .ofOptStr p.prefix_, .bool p.suppress_blank,
   .ofOptStr p.suppress_tokens, .float p.max_initial_timestamp,
   .bool p.word_timestamps, .ofOptStr p.prepend_punctuations,
   .ofOptStr p.append_punctuations, .ofOptInt p.max_new_tokens,
   .ofOptInt p.chunk_length, .ofOptFloat p.hallucination_silence_threshold,
   .ofOptStr p.hotwords, .ofOptFloat p.language_detection_threshold,
   .int p.language_detection_segments]

/-- Helper: an optional value guarded by a boolean condition is present
exactly when the condition holds. -/
theorem isSome_condSome {α : Type} (c : Bool) (x : α) :
    (if c = true then some x else Option.none).isSome = c := by
  cases c
  · rfl
  · rfl

/-- C1 counterexample: `DiarizationParams.to_gradio_inputs` at an empty
defaults dictionary does not return a widget list at all — it raises
`AttributeError("is_diarize")` at the first `cls.<field>` fallback —
while `DiarizationParams` declares two fields, so the renderer does not
return exactly one widget per declared field. -/
theorem C1_counterexample_renderer_raises :
    DiarizationParams.to_gradio_inputs [] Option.none Option.none
        = Except.error (PyErr.attributeError "is_diarize")
    ∧ (DiarizationParams.to_gradio_inputs [] Option.none Option.none).isOk
        = false
    ∧ DiarizationParams.fieldNames.length = 2 :=
  ⟨rfl, rfl, rfl⟩

/-- C1 amended: no form-rendering classmethod returns a widget list for
any arguments: pydantic v2 removes field class attributes, so each
renderer raises `AttributeError` at its first `cls.<field>` fallback
(`vad_filter`, `is_diarize`, `is_separate_bgm`, and `model_size` or
`beam_size` depending on `only_advanced`) before any widget reaches the
caller. -/
theorem C1_amended_renderers_raise (d : Dict)
    (ad : Option (List String)) (dev : Option String)
    (am : Option (List String)) (oa : Bool) (wty : Option WhisperImpl)
    (act : Option (List String)) (ct : Option String) :
    VadParams.to_gradio_inputs d
        = Except.error (PyErr.attributeError "vad_filter")
    ∧ DiarizationParams.to_gradio_inputs d ad dev
        = Except.error (PyErr.attributeError "is_diarize")
    ∧ BGMSeparationParams.to_gradio_input d ad dev am
        = Except.error (PyErr.attributeError "is_separate_bgm")
    ∧ WhisperParams.to_gradio_inputs d oa wty act ct
        = Except.error (PyErr.attributeError
            (if oa then "beam_size" else "model_size")) := by
  refine ⟨rfl, rfl, rfl, ?_⟩
  cases oa <;> rfl

/-- C3: `as_list` concatenates the whisper block, the vad block twice and
the bgm block, each in declaration order; replacing the diarization
sub-record changes nothing. -/
theorem C3_as_list_blocks (p : TranscriptionPipelineParams) :
    p.as_list = p.whisper.fieldValues ++ p.vad.fieldValues
      ++ p.vad.fieldValues ++ p.bgm_separation.fieldValues
    ∧ ∀ q : DiarizationParams,
        ({ p with diarization := q } : TranscriptionPipelineParams).as_list
          = p.as_list :=
  ⟨rfl, fun _ => rfl⟩

/-- C2 counterexample: with an empty defaults dictionary,
`WhisperParams.to_gradio_inputs` renders no widget whatsoever — it raises
`AttributeError("beam_size")` before any widget is finished — so no
rendered widget's value equals the defaults entry or the declared field
default. -/
theorem C2_counterexample_no_widget_rendered :
    WhisperParams.to_gradio_inputs [] true Option.none Option.none
        Option.none
        = Except.error (PyErr.attributeError "beam_size")
    ∧ (WhisperParams.to_gradio_inputs [] true Option.none Option.none
        Option.none).isOk = false :=
  ⟨rfl, rfl⟩

/-- C2 amended: no widget value is ever populated, from the defaults
dictionary or from declared defaults: for every defaults dictionary and
all other arguments, each form-rendering classmethod raises
`AttributeError` at its first `cls.<field>` fallback — evaluated eagerly
by `dict.get` even when the key is present — and returns no widget. -/
theorem C2_amended_no_widget_values (d : Dict) (ad : Option (List String))
    (dev : Option String) (am : Option (List String)) (oa : Bool)
    (wty : Option WhisperImpl) (act : Option (List String))
    (ct : Option String) :
    (VadParams.to_gradio_inputs d).isOk = false
    ∧ (DiarizationParams.to_gradio_inputs d ad dev).isOk = false
    ∧ (BGMSeparationParams.to_gradio_input d ad dev am).isOk = false
    ∧ (WhisperParams.to_gradio_inputs d oa wty act ct).isOk = false := by
  refine ⟨rfl, rfl, rfl, ?_⟩
  cases oa <;> rfl

/-- C4: pydantic construction succeeds exactly when every supplied field
value satisfies its declared range bound, for each record type
(`DiarizationParams` declares no bounds and always succeeds); an
out-of-range value yields no record. -/
theorem C4_range_validation (v : VadParams) (w : WhisperParams)
    (b : BGMSeparationParams) (dz : DiarizationParams) :
    (v.construct.isSome = true ↔
      (PyFloat.le (.finite 0) v.threshold = true
        ∧ PyFloat.le v.threshold (.finite 1) = true
        ∧ 0 ≤ v.min_speech_duration_ms
        ∧ PyFloat.lt (.finite 0) v.max_speech_duration_s = true
        ∧ 0 ≤ v.min_silence_duration_ms
        ∧ 0 ≤ v.speech_pad_ms))
    ∧ (w.construct.isSome = true ↔
      (1 ≤ w.beam_size
        ∧ PyFloat.le (.finite 0) w.no_speech_threshold = true
        ∧ PyFloat.le w.no_speech_threshold (.finite 1) = true
        ∧ 1 ≤ w.best_of
        ∧ PyFloat.lt (.finite 0) w.patience = true
        ∧ PyFloat.le (.finite 0) w.prompt_reset_on_temperature = true
        ∧ PyFloat.le w.prompt_reset_on_temperature (.finite 1) = true
        ∧ PyFloat.le (.finite 0) w.temperature = true
        ∧ PyFloat.lt (.finite 0) w.compression_ratio_threshold = true
        ∧ 0 < w.batch_size
        ∧ PyFloat.lt (.finite 0) w.length_penalty = true
        ∧ PyFloat.lt (.finite 0) w.repetition_penalty = true
        ∧ 0 ≤ w.no_repeat_ngram_size
        ∧ PyFloat.le (.finite 0) w.max_initial_timestamp = true
        ∧ 0 < w.language_detection_segments))
    ∧ (b.construct.isSome = true ↔ 0 < b.segment_size)
    ∧ dz.construct.isSome = true := by
  refine ⟨?_, ?_, ?_, rfl⟩
  · have h1 : v.construct.isSome = v.valid := isSome_condSome v.valid v
    rw [h1]
    simp only [VadParams.valid, Bool.and_eq_true, decide_eq_true_eq, and_assoc]
  · have h2 : w.construct.isSome
        = ({ w with lang := WhisperParams.validate_lang w.lang } :
            WhisperParams).valid :=
      isSome_condSome _ _
    rw [h2]
    simp only [WhisperParams.valid, Bool.and_eq_true, decide_eq_true_eq,
      and_assoc]
  · have h3 : b.construct.isSome = b.valid := isSome_condSome b.valid b
    rw [h3]
    simp only [BGMSeparationParams.valid, decide_eq_true_eq]

/-- C5 counterexample: `model_size` and `compute_type` carry no
enum-membership constraint, so constructing `WhisperParams` (resp.
`BGMSeparationParams`) with a string outside the GUI's fixed choice sets
succeeds instead of failing with a validation error. -/
theorem C5_counterexample_no_enum_check :
    (WhisperParams.construct { model_size := "not-a-whisper-model" }).isSome
        = true
    ∧ ({ model_size := "not-a-whisper-model" } : WhisperParams).model_size
        ∉ ["small", "medium", "large-v2"]
    ∧ (WhisperParams.construct { compute_type := "bogus-compute" }).isSome
        = true
    ∧ ({ compute_type := "bogus-compute" } : WhisperParams).compute_type
        ∉ ["float16", "int8", "int16"]
    ∧ (BGMSeparationParams.construct { model_size := "bogus-model" }).isSome
        = true
    ∧ ({ model_size := "bogus-model" } : BGMSeparationParams).model_size
        ∉ ["UVR-MDX-NET-Inst_HQ_4", "UVR-MDX-NET-Inst_3"] := by
  decide

/-- C5 amended: no field of any record carries an enum-membership
constraint; whether construction succeeds is independent of the
`model_size` and `compute_type` strings, whose fixed sets appear only as
dropdown `choices` in the rendered widgets. -/
theorem C5_amended_no_membership_constraint (w : WhisperParams)
    (b : BGMSeparationParams) (s t u : String) :
    ({ w with model_size := s, compute_type := t } :
        WhisperParams).construct.isSome = w.construct.isSome
    ∧ ({ b with model_size := u } :
        BGMSeparationParams).construct.isSome = b.construct.isSome := by
  constructor <;>
    simp only [WhisperParams.construct, BGMSeparationParams.construct,
      WhisperParams.validate_lang, WhisperParams.valid,
      BGMSeparationParams.valid, apply_ite Option.isSome,
      Option.isSome_some, Option.isSome_none]

/-- C6: `TranscriptionPipelineParams` aggregates exactly the four
sub-records `whisper`, `vad`, `diarization`, `bgm_separation`, each
defaulting to the default construction of its type, and `to_dict` returns
exactly those four keys, each mapped to the sub-record's `to_dict`. -/
theorem C6_pipeline_aggregation (p : TranscriptionPipelineParams) :
    p.to_dict = [("whisper", p.whisper.to_dict), ("vad", p.vad.to_dict),
      ("diarization", p.diarization.to_dict),
      ("bgm_separation", p.bgm_separation.to_dict)]
    ∧ ({} : TranscriptionPipelineParams).whisper = WhisperParams.default
    ∧ ({} : TranscriptionPipelineParams).vad = VadParams.default
    ∧ ({} : TranscriptionPipelineParams).diarization
        = DiarizationParams.default
    ∧ ({} : TranscriptionPipelineParams).bgm_separation
        = BGMSeparationParams.default :=
  ⟨rfl, rfl, rfl, rfl, rfl⟩

/-- C7: every record type constructs successfully with no arguments, and
the resulting field values are the declared per-field defaults, including
`max_speech_duration_s = +infinity`, `lang = None`,
`temperature = 0.0`, `compute_type = "float16"` and
`enable_offload = True`. -/
theorem C7_default_construction :
    VadParams.construct {} = some VadParams.default
    ∧ VadParams.default.vad_filter = false
    ∧ VadParams.default.threshold = .finite (mkRat 1 2)
    ∧ VadParams.default.min_speech_duration_ms = 250
    ∧ VadParams.default.max_speech_duration_s = .inf
    ∧ VadParams.default.min_silence_duration_ms = 2000
    ∧ VadParams.default.speech_pad_ms = 400
    ∧ WhisperParams.construct {} = some WhisperParams.default
    ∧ WhisperParams.default.model_size = "large-v2"
    ∧ WhisperParams.default.lang = Option.none
    ∧ WhisperParams.default.beam_size = 5
    ∧ WhisperParams.default.temperature = .finite 0
    ∧ WhisperParams.default.compute_type = "float16"
    ∧ BGMSeparationParams.construct {} = some BGMSeparationParams.default
    ∧ BGMSeparationParams.default.model_size = "UVR-MDX-NET-Inst_HQ_4"
    ∧ BGMSeparationParams.default.segment_size = 256
    ∧ BGMSeparationParams.default.enable_offload = true
    ∧ DiarizationParams.construct {} = some DiarizationParams.default := by
  decide

/-- C8: a constructed `WhisperParams` never carries the
`AUTOMATIC_DETECTION` sentinel in `lang`: the field validator maps the
sentinel to `None` and keeps every other value unchanged. -/
theorem C8_lang_never_sentinel :
    (∀ i p : WhisperParams,
      WhisperParams.construct i = some p → p.lang ≠ some AUTOMATIC_DETECTION)
    ∧ WhisperParams.validate_lang (some AUTOMATIC_DETECTION) = Option.none
    ∧ (∀ v : Option String, v ≠ some AUTOMATIC_DETECTION →
        WhisperParams.validate_lang v = v) := by
  refine ⟨?_, by simp [WhisperParams.validate_lang], ?_⟩
  · intro i p h
    unfold WhisperParams.construct at h
    dsimp only [] at h
    split at h
    · obtain rfl : _ = p := Option.some.inj h
      show WhisperParams.validate_lang i.lang ≠ some AUTOMATIC_DETECTION
      unfold WhisperParams.validate_lang
      split
      · exact fun hc => Option.noConfusion hc
      · assumption
    · exact Option.noConfusion h
  · intro v hv
    simp [WhisperParams.validate_lang, hv]

/-- Witness for C8: the ordinary language value `"en"` passes through the
validator unchanged. -/
theorem C8_lang_never_sentinel_witness :
    WhisperParams.validate_lang (some "en") = some "en" :=
  C8_lang_never_sentinel.2.2 (some "en") (by decide)

/-- C9 counterexample: even for the `FASTER_WHISPER` implementation, the
classmethod raises `AttributeError("beam_size")` before the Length Penalty
widget is built, so no Length Penalty (or Batch Size) widget with a
visible flag ever exists. -/
theorem C9_counterexample_widget_never_built :
    WhisperParams.to_gradio_inputs [] true (some .faster_whisper)
        Option.none Option.none
        = Except.error (PyErr.attributeError "beam_size")
    ∧ (WhisperParams.to_gradio_inputs [] true (some .faster_whisper)
        Option.none Option.none).isOk = false
    ∧ (WhisperParams.to_gradio_inputs [] true (some .insanely_fast_whisper)
        Option.none Option.none).isOk = false :=
  ⟨rfl, rfl, rfl⟩

/-- C9 amended: `WhisperParams.to_gradio_inputs` never renders a Length
Penalty or Batch Size widget — it raises `AttributeError` before reaching
them for every argument combination; the enum-versus-string comparisons
the source writes into those widgets' `visible=` arguments would indeed
evaluate to `False` for every `WhisperImpl` member, since an `Enum` member
never equals a plain string (and the member value is even
`"faster-whisper"`, with a hyphen). -/
theorem C9_amended_visible_comparisons (d : Dict) (oa : Bool)
    (wty : Option WhisperImpl) (act : Option (List String))
    (ct : Option String) (wimpl : WhisperImpl) :
    (WhisperParams.to_gradio_inputs d oa wty act ct).isOk = false
    ∧ PyVal.pyEq wimpl.toPyVal (.str "faster_whisper") = false
    ∧ PyVal.pyEq wimpl.toPyVal (.str "insanely_fast_whisper") = false := by
  refine ⟨?_, ?_, ?_⟩
  · cases oa <;> rfl
  · cases wimpl <;> rfl
  · cases wimpl <;> rfl

/-- C10 counterexample: a call of `VadParams.to_gradio_inputs` produces no
widget list at all — it raises `AttributeError("vad_filter")` — so two
calls with equal arguments do not produce equal widget lists. -/
theorem C10_counterexample_no_widget_list :
    VadParams.to_gradio_inputs []
        = Except.error (PyErr.attributeError "vad_filter")
    ∧ (VadParams.to_gradio_inputs []).isOk = false :=
  ⟨rfl, rfl⟩

/-- C10 amended: each form-rendering classmethod is a pure function of its
arguments — two calls with equal defaults dictionaries and equal remaining
arguments have the same outcome — but that outcome is always the same
`AttributeError`, never a widget list. -/
theorem C10_amended_same_outcome
    (d1 d2 : Dict) (ad1 ad2 : Option (List String)) (dev1 dev2 : Option String)
    (am1 am2 : Option (List String)) (oa1 oa2 : Bool)
    (wty1 wty2 : Option WhisperImpl) (act1 act2 : Option (List String))
    (ct1 ct2 : Option String)
    (hd : d1 = d2) (had : ad1 = ad2) (hdev : dev1 = dev2) (ham : am1 = am2)
    (hoa : oa1 = oa2) (hwty : wty1 = wty2) (hact : act1 = act2)
    (hct : ct1 = ct2) :
    VadParams.to_gradio_inputs d1 = VadParams.to_gradio_inputs d2
    ∧ DiarizationParams.to_gradio_inputs d1 ad1 dev1
        = DiarizationParams.to_gradio_inputs d2 ad2 dev2
    ∧ BGMSeparationParams.to_gradio_input d1 ad1 dev1 am1
        = BGMSeparationParams.to_gradio_input d2 ad2 dev2 am2
    ∧ WhisperParams.to_gradio_inputs d1 oa1 wty1 act1 ct1
        = WhisperParams.to_gradio_inputs d2 oa2 wty2 act2 ct2
    ∧ VadParams.to_gradio_inputs d1
        = Except.error (PyErr.attributeError "vad_filter")
    ∧ (WhisperParams.to_gradio_inputs d1 oa1 wty1 act1 ct1).isOk = false := by
  subst hd had hdev ham hoa hwty hact hct
  refine ⟨rfl, rfl, rfl, rfl, rfl, ?_⟩
  cases oa1 <;> rfl

/-- Witness for C10: the renderers at concrete equal arguments share the
same erroneous outcome. -/
theorem C10_amended_same_outcome_witness :
    VadParams.to_gradio_inputs [] = VadParams.to_gradio_inputs []
    ∧ DiarizationParams.to_gradio_inputs [] Option.none Option.none
        = DiarizationParams.to_gradio_inputs [] Option.none Option.none
    ∧ BGMSeparationParams.to_gradio_input [] Option.none Option.none
          Option.none
        = BGMSeparationParams.to_gradio_input [] Option.none Option.none
          Option.none
    ∧ WhisperParams.to_gradio_inputs [] true Option.none Option.none
          Option.none
        = WhisperParams.to_gradio_inputs [] true Option.none Option.none
          Option.none
    ∧ VadParams.to_gradio_inputs []
        = Except.error (PyErr.attributeError "vad_filter")
    ∧ (WhisperParams.to_gradio_inputs [] true Option.none Option.none
        Option.none).isOk = false :=
  C10_amended_same_outcome [] [] Option.none Option.none Option.none
    Option.none Option.none Option.none true true Option.none Option.none
    Option.none Option.none Option.none Option.none rfl rfl rfl rfl rfl rfl
    rfl rfl

end WWebUI
